import Mathlib

/-!
Verification development for the monad-agent repository: a shallow embedding of
the transaction-submission pipeline and its domain operations (task tracking,
notices, leave management, payroll), translated from the Python sources
(`app.py`, `agent.py`, `notice_manager.py`, `payment_handler.py`,
`backend/leave_management.py`).

The chain client (web3) is an external collaborator: we model the network
interactions an operation performs as an explicit trace of `ChainAction`s, and
the values the chain returns (transaction count, gas price, transaction hash,
receipt) as an environment record consumed by the operation.
-/

/-- One network interaction with the chain client. Every constructor
corresponds to a web3 call that goes over HTTP to the RPC node. -/
inductive ChainAction where
  | isConnected
  | getTransactionCount
  | getGasPrice
  | sendRawTransaction
  | waitForReceipt
  | ethCall
deriving Repr, DecidableEq, BEq

/-- A decoded event-log entry: the event type it matched (abstraction of the
topic signature) and its decoded arguments. -/
structure LogEntry where
  event : String
  args : List (String × Nat)
deriving Repr, DecidableEq, BEq

/-- A transaction receipt as used by the sources: hash, block number, logs. -/
structure Receipt where
  txHash : String
  blockNumber : Nat
  logs : List LogEntry
deriving Repr, DecidableEq, BEq

/-- Model of `contract.events.E().process_receipt(receipt)`: the log entries of
the receipt that match the event signature, in receipt order. -/
def processReceiptLogs (eventName : String) (r : Receipt) : List LogEntry :=
  r.logs.filter (fun l => l.event == eventName)

/-- Model of the identifier-extraction idiom shared by `TaskTracker.create_task`
(app.py 114-117), `handle_employee_payment` (payment_handler.py 108-111),
`NoticeManager.create_notice` and `LeaveManagement.request_leave`:
`x = 0; logs = process_receipt(receipt); if logs: x = logs[0].args[field]`. -/
def extractEventId (eventName fieldName : String) (r : Receipt) : Nat :=
  match processReceiptLogs eventName r with
  | [] => 0
  | l :: _ => (l.args.lookup fieldName).getD 0

/-- Python `s.startswith(p)`, evaluated on the character sequence of the
string. -/
def strStartsWith (s p : String) : Bool :=
  s.data.take p.data.length == p.data

/-- Python `s.lower()`, evaluated characterwise. -/
def strToLower (s : String) : String :=
  ⟨s.data.map Char.toLower⟩

/-- Python truthiness of a string: an empty string is falsy. -/
def strIsEmpty (s : String) : Bool :=
  s.data.isEmpty

/-- The address-format check performed by `agent.py` in `manage_leave`
(lines 221-223) and `process_employee_payment` (lines 290-292):
`employee_address.startswith('0x') and len(employee_address) == 42`. -/
def agentAddressCheck (s : String) : Bool :=
  strStartsWith s "0x" && s.length == 42

/-- Hexadecimal-digit test, as in the address pattern of the specification. -/
def isHexChar (c : Char) : Bool :=
  c.isDigit || ('a' ≤ c && c ≤ 'f') || ('A' ≤ c && c ≤ 'F')

/-- Modelled from the spec (refinement target, not source code): the address
pattern the specification states, namely the two characters `0x` followed by
exactly 40 hexadecimal characters. -/
def specAddressPattern (s : String) : Bool :=
  strStartsWith s "0x" && s.length == 42 && (s.data.drop 2).all isHexChar

/-- A transaction plan as assembled by `build_transaction` at each call site:
chain id, gas limit, gas price, nonce, and optional attached native value. -/
structure TxPlan where
  chainId : Nat
  gas : Nat
  gasPrice : Nat
  nonce : Nat
  value : Option Nat
deriving Repr, DecidableEq, BEq

/-- Plan built by `TaskTracker.create_task` (app.py 102-108). -/
def createTaskPlan (gasPrice nonce : Nat) : TxPlan :=
  { chainId := 10143, gas := 2000000, gasPrice := gasPrice, nonce := nonce, value := none }

/-- Plan built by `TaskTracker.update_task_status` (app.py 137-143). -/
def updateTaskStatusPlan (gasPrice nonce : Nat) : TxPlan :=
  { chainId := 10143, gas := 2000000, gasPrice := gasPrice, nonce := nonce, value := none }

/-- Plan built by `NoticeManager.create_notice` (notice_manager.py 125-131). -/
def createNoticePlan (gasPrice nonce : Nat) : TxPlan :=
  { chainId := 10143, gas := 2000000, gasPrice := gasPrice, nonce := nonce, value := none }

/-- Plan built by `LeaveManagement.request_leave` (leave_management.py 143-149). -/
def requestLeavePlan (gasPrice nonce : Nat) : TxPlan :=
  { chainId := 10143, gas := 2000000, gasPrice := gasPrice, nonce := nonce, value := none }

/-- Plan built by `LeaveManagement.update_leave_status` (leave_management.py 181-187). -/
def updateLeaveStatusPlan (gasPrice nonce : Nat) : TxPlan :=
  { chainId := 10143, gas := 2000000, gasPrice := gasPrice, nonce := nonce, value := none }

/-- Plan built by `LeaveManagement.mark_attendance` (leave_management.py 240-246). -/
def markAttendancePlan (gasPrice nonce : Nat) : TxPlan :=
  { chainId := 10143, gas := 2000000, gasPrice := gasPrice, nonce := nonce, value := none }

/-- Plan built for `createPayment` in `handle_employee_payment`
(payment_handler.py 95-101). -/
def createPaymentPlan (gasPrice nonce : Nat) : TxPlan :=
  { chainId := 10143, gas := 2000000, gasPrice := gasPrice, nonce := nonce, value := none }

/-- Plan built for `processPayment` in `handle_employee_payment`
(payment_handler.py 126-133): this one attaches the payment amount as value. -/
def processPaymentPlan (gasPrice nonce amount : Nat) : TxPlan :=
  { chainId := 10143, gas := 2000000, gasPrice := gasPrice, nonce := nonce, value := some amount }

/-- Structured outcome of a domain operation, mirroring the result dicts of the
sources: `{'status': 'success', id, tx_hash, block_number}` or
`{'status': 'error', 'message': ...}`. -/
inductive Outcome where
  | success (ident : Nat) (txHash : String) (blockNumber : Nat)
  | error (message : String)
deriving Repr, DecidableEq, BEq

/-- Result of one invocation of a domain operation: the network actions it
performed in order, the transaction plans it built, and its outcome. -/
structure OpResult (ω : Type) where
  trace : List ChainAction
  plans : List TxPlan
  outcome : ω
deriving Repr, DecidableEq, BEq

/-- Number of state-changing transaction submissions in a trace. -/
def sendCount (t : List ChainAction) : Nat :=
  t.count ChainAction.sendRawTransaction

/-- Values the chain client returns during a single-transaction operation. -/
structure ChainEnv where
  connected : Bool
  txCount : Nat
  gasPrice : Nat
  txHash : String
  receipt : Receipt
deriving Repr, DecidableEq, BEq

/-- Labels for task status codes (`TaskTracker.TASK_STATUS`, app.py 70). -/
def TASK_STATUS : List String := ["Pending", "In Progress", "Completed", "Cancelled"]

/-- Labels for leave status codes (`LeaveManagement.LEAVE_STATUS`,
leave_management.py 100). -/
def LEAVE_STATUS : List String := ["Pending", "Approved", "Rejected"]

/-- Leave types accepted by `request_leave` (`LeaveManagement.LEAVE_TYPES`,
leave_management.py 101). -/
def LEAVE_TYPES : List String := ["Annual", "Sick", "Personal", "Maternity/Paternity", "Unpaid"]

/-- Priority labels (`NoticeManager.PRIORITY_LEVELS`, notice_manager.py 72). -/
def PRIORITY_LEVELS : List String := ["Low", "Medium", "High", "Urgent"]

/-- Notice categories (`NoticeManager.VALID_CATEGORIES`, notice_manager.py 73-81). -/
def VALID_CATEGORIES : List String :=
  ["managers", "senior_employees", "department_heads", "all_employees",
   "technical_team", "hr_team", "finance_team"]

/-- The guarded indexing idiom `labels[code] if code < len(labels) else 'Unknown'`
used at app.py 175, leave_management.py 220 and notice_manager.py 177. -/
def statusLabel (labels : List String) (code : Nat) : String :=
  if h : code < labels.length then labels.get ⟨code, h⟩ else "Unknown"

/-- Split a character sequence at every occurrence of a separator character. -/
def splitOnChar (c : Char) : List Char → List (List Char)
  | [] => [[]]
  | x :: xs =>
    let r := splitOnChar c xs
    if x == c then [] :: r
    else
      match r with
      | [] => [[x]]
      | h :: t => (x :: h) :: t

/-- Decimal value of a digit sequence. -/
def digitsToNat (l : List Char) : Nat :=
  l.foldl (fun n c => n * 10 + (c.toNat - 48)) 0

/-- Model of `datetime.strptime(s, "%Y-%m-%d")` (an external library call),
returning the calendar triple (year, month, day) on success. The sources only
compare the parsed dates, so we keep the triple rather than a timestamp. -/
def parseDate (s : String) : Option (Nat × Nat × Nat) :=
  match splitOnChar '-' s.data with
  | [y, m, d] =>
    if y.length == 4 && m.length == 2 && d.length == 2 &&
       y.all Char.isDigit && m.all Char.isDigit && d.all Char.isDigit then
      let mv := digitsToNat m
      let dv := digitsToNat d
      if 1 ≤ mv && mv ≤ 12 && 1 ≤ dv && dv ≤ 31 then
        some (digitsToNat y, mv, dv)
      else none
    else none
  | _ => none

/-- Strict ordering of parsed dates, as `datetime` comparison:
lexicographic on (year, month, day). -/
def dateGt (a b : Nat × Nat × Nat) : Bool :=
  a.1 > b.1 || (a.1 == b.1 && (a.2.1 > b.2.1 || (a.2.1 == b.2.1 && a.2.2 > b.2.2)))

/-- `TaskTracker.__init__` (app.py 72-85): raises unless a connection to the
RPC node can be established; `is_connected()` itself is a network round trip. -/
def TaskTracker.init (connected : Bool) : List ChainAction × Except String Unit :=
  ([ChainAction.isConnected],
   if connected then Except.ok () else Except.error "Failed to connect to Monad RPC node")

/-- `TaskTracker.create_task` (app.py 87-127). `deadlineParsed` is the result of
`datetime.strptime(deadline, "%Y-%m-%d %H:%M:%S")` (`none` when it raises) and
`assigneeOk` the result of the external `Web3.is_address(assignee)`. -/
def TaskTracker.create_task (env : ChainEnv) (deadlineParsed : Option Nat)
    (assigneeOk : Bool) : OpResult Outcome :=
  match deadlineParsed with
  | none => ⟨[], [], Outcome.error "time data does not match format %Y-%m-%d %H:%M:%S"⟩
  | some _ =>
    if !assigneeOk then ⟨[], [], Outcome.error "Invalid assignee address"⟩
    else
      ⟨[ChainAction.getTransactionCount, ChainAction.getGasPrice,
        ChainAction.sendRawTransaction, ChainAction.waitForReceipt],
       [createTaskPlan env.gasPrice env.txCount],
       Outcome.success (extractEventId "TaskCreated" "taskId" env.receipt)
         env.txHash env.receipt.blockNumber⟩

/-- `TaskTracker.update_task_status` (app.py 129-157): no local validation,
straight to nonce fetch, build, sign, submit, await. -/
def TaskTracker.update_task_status (env : ChainEnv) (task_id _status : Nat) :
    OpResult Outcome :=
  ⟨[ChainAction.getTransactionCount, ChainAction.getGasPrice,
    ChainAction.sendRawTransaction, ChainAction.waitForReceipt],
   [updateTaskStatusPlan env.gasPrice env.txCount],
   Outcome.success task_id env.txHash env.receipt.blockNumber⟩

/-- Decoded record shape produced by `TaskTracker.get_my_tasks`. The deadline is
kept as its raw timestamp (the source merely reformats it for display). -/
structure TaskRec where
  id : Nat
  description : String
  deadline : Nat
  assigner : String
  assignee : String
  status : String
  status_code : Nat
deriving Repr, DecidableEq, BEq

/-- Raw task tuple as returned by the contract call in `getMyTasks`. -/
structure TaskTuple where
  id : Nat
  description : String
  deadline : Nat
  assigner : String
  assignee : String
  status : Nat
deriving Repr, DecidableEq, BEq

/-- `TaskTracker.get_my_tasks` (app.py 159-183): decodes the contract response
into records; any exception from the call or the decoding is swallowed and an
empty list returned. `resp` is the outcome of the read-only contract call. -/
def TaskTracker.get_my_tasks (resp : Except String (List TaskTuple)) : List TaskRec :=
  match resp with
  | Except.error _ => []
  | Except.ok tasks =>
    tasks.map (fun t =>
      ⟨t.id, t.description, t.deadline, t.assigner, t.assignee,
       statusLabel TASK_STATUS t.status, t.status⟩)

/-- `LeaveManagement.__init__` (leave_management.py 103-119): checks the two
environment values, then connects; `is_connected()` is a network round trip and
a failure raises `ConnectionError`. -/
def LeaveManagement.init (hasKey hasContract connected : Bool) :
    List ChainAction × Except String Unit :=
  if !hasKey then ([], Except.error "PRIVATE_KEY not found in .env file")
  else if !hasContract then ([], Except.error "LEAVE_CONTRACT_ADDRESS not found in .env file")
  else
    ([ChainAction.isConnected],
     if connected then Except.ok () else Except.error "Failed to connect to Monad RPC node")

/-- `LeaveManagement.request_leave` (leave_management.py 121-168): parse both
dates, reject start after end, reject unknown leave type, then fetch nonce,
build, sign, submit, await receipt and extract the `leaveId` of the
`LeaveRequested` event. -/
def LeaveManagement.request_leave (env : ChainEnv)
    (start_date end_date leave_type _reason : String) : OpResult Outcome :=
  match parseDate start_date, parseDate end_date with
  | some s, some e =>
    if dateGt s e then ⟨[], [], Outcome.error "Start date cannot be after end date"⟩
    else if !(LEAVE_TYPES.contains leave_type) then
      ⟨[], [], Outcome.error "Invalid leave type"⟩
    else
      ⟨[ChainAction.getTransactionCount, ChainAction.getGasPrice,
        ChainAction.sendRawTransaction, ChainAction.waitForReceipt],
       [requestLeavePlan env.gasPrice env.txCount],
       Outcome.success (extractEventId "LeaveRequested" "leaveId" env.receipt)
         env.txHash env.receipt.blockNumber⟩
  | _, _ => ⟨[], [], Outcome.error "time data does not match format %Y-%m-%d"⟩

/-- `LeaveManagement.update_leave_status` (leave_management.py 170-201):
rejects a status code outside `range(len(LEAVE_STATUS))`, then submits. -/
def LeaveManagement.update_leave_status (env : ChainEnv) (leave_id status : Nat) :
    OpResult Outcome :=
  if !(status < LEAVE_STATUS.length) then ⟨[], [], Outcome.error "Invalid status code"⟩
  else
    ⟨[ChainAction.getTransactionCount, ChainAction.getGasPrice,
      ChainAction.sendRawTransaction, ChainAction.waitForReceipt],
     [updateLeaveStatusPlan env.gasPrice env.txCount],
     Outcome.success leave_id env.txHash env.receipt.blockNumber⟩

/-- `LeaveManagement.mark_attendance` (leave_management.py 230-260): parses the
date (failure is caught into an error result), then submits. -/
def LeaveManagement.mark_attendance (env : ChainEnv) (date : String) : OpResult Outcome :=
  match parseDate date with
  | none => ⟨[], [], Outcome.error "time data does not match format %Y-%m-%d"⟩
  | some _ =>
    ⟨[ChainAction.getTransactionCount, ChainAction.getGasPrice,
      ChainAction.sendRawTransaction, ChainAction.waitForReceipt],
     [markAttendancePlan env.gasPrice env.txCount],
     Outcome.success 0 env.txHash env.receipt.blockNumber⟩

/-- Raw leave tuple as returned by the `getMyLeaves` contract call. -/
structure LeaveTuple where
  id : Nat
  startDate : Nat
  endDate : Nat
  leaveType : String
  reason : String
  employee : String
  status : Nat
deriving Repr, DecidableEq, BEq

/-- Decoded leave record built by `get_my_leaves` (timestamps kept raw; the
source merely reformats them for display). -/
structure LeaveRec where
  id : Nat
  start_date : Nat
  end_date : Nat
  leave_type : String
  reason : String
  employee : String
  status : String
  status_code : Nat
deriving Repr, DecidableEq, BEq

/-- `LeaveManagement.get_my_leaves` (leave_management.py 203-228): decodes the
response; any exception is swallowed into an empty list. -/
def LeaveManagement.get_my_leaves (resp : Except String (List LeaveTuple)) :
    List LeaveRec :=
  match resp with
  | Except.error _ => []
  | Except.ok leaves =>
    leaves.map (fun l =>
      ⟨l.id, l.startDate, l.endDate, l.leaveType, l.reason, l.employee,
       statusLabel LEAVE_STATUS l.status, l.status⟩)

/-- Raw attendance tuple as returned by the `getAttendance` contract call. -/
structure AttendanceRec where
  date : Nat
  present : Bool
deriving Repr, DecidableEq, BEq

/-- `LeaveManagement.get_attendance` (leave_management.py 262-290): parses the
range bounds, queries, decodes; every exception (parse, network, decode) is
swallowed into an empty list. -/
def LeaveManagement.get_attendance (start_date end_date : String)
    (resp : Except String (List AttendanceRec)) : List AttendanceRec :=
  match parseDate start_date, parseDate end_date with
  | some _, some _ =>
    match resp with
    | Except.error _ => []
    | Except.ok records => records.map (fun r => ⟨r.date, r.present⟩)
  | _, _ => []

/-- Result of `NoticeManager.create_notice`: besides trace, plans and outcome it
records the category argument actually passed to `createNotice` on the
contract, when the call is reached. -/
structure NoticeCreateResult where
  trace : List ChainAction
  plans : List TxPlan
  sentCategory : Option String
  outcome : Outcome
deriving Repr, DecidableEq, BEq

/-- `NoticeManager.create_notice` (notice_manager.py 98-150): rejects a category
whose lowercase form is not in `VALID_CATEGORIES`, rejects a priority outside
`0 <= priority <= 3`, then fetches the nonce, builds the transaction with the
lowercased category, submits, awaits the receipt and extracts `noticeId`. -/
def NoticeManager.create_notice (env : ChainEnv) (category _description : String)
    (priority : Int) (_content : String) : NoticeCreateResult :=
  if !(VALID_CATEGORIES.contains (strToLower category)) then
    ⟨[], [], none, Outcome.error "Invalid category"⟩
  else if !(0 ≤ priority ∧ priority ≤ 3 : Bool) then
    ⟨[], [], none, Outcome.error "Priority must be between 0 and 3"⟩
  else
    ⟨[ChainAction.getTransactionCount, ChainAction.getGasPrice,
      ChainAction.sendRawTransaction, ChainAction.waitForReceipt],
     [createNoticePlan env.gasPrice env.txCount],
     some (strToLower category),
     Outcome.success (extractEventId "NoticeCreated" "noticeId" env.receipt)
       env.txHash env.receipt.blockNumber⟩

/-- Raw notice tuple as returned by the `getNoticesByCategory` contract call. -/
structure NoticeTuple where
  id : Nat
  category : String
  description : String
  priority : Nat
  content : String
  sender : String
  timestamp : Nat
deriving Repr, DecidableEq, BEq

/-- Decoded notice record built by `get_notices_by_category`. -/
structure NoticeRec where
  id : Nat
  category : String
  description : String
  priority : String
  content : String
  sender : String
  timestamp : Nat
deriving Repr, DecidableEq, BEq

/-- `NoticeManager.get_notices_by_category` (notice_manager.py 152-187): an
unknown category (after lowercasing) short-circuits to an empty list; otherwise
the contract is queried with the lowercased category and any exception is
swallowed into an empty list. The first component records the category string
passed to the contract call, when it is reached. -/
def NoticeManager.get_notices_by_category (category : String)
    (resp : Except String (List NoticeTuple)) : Option String × List NoticeRec :=
  if !(VALID_CATEGORIES.contains (strToLower category)) then (none, [])
  else
    match resp with
    | Except.error _ => (some (strToLower category), [])
    | Except.ok notices =>
      (some (strToLower category),
       notices.map (fun n =>
         ⟨n.id, n.category, n.description, statusLabel PRIORITY_LEVELS n.priority,
          n.content, n.sender, n.timestamp⟩))

/-- Values the chain client returns during `handle_employee_payment`, which may
perform two submissions (one nonce/gas-price fetch, hash, and receipt for
each). `addrValid` is the result of the external `Web3.is_address` check. -/
structure PaymentEnv where
  connected : Bool
  addrValid : Bool
  txCount1 : Nat
  gasPrice1 : Nat
  createHash : String
  createRcpt : Receipt
  txCount2 : Nat
  gasPrice2 : Nat
  procHash : String
  procRcpt : Receipt
deriving Repr, DecidableEq, BEq

/-- Outcome of `handle_employee_payment`: on success the payment id, the
creation transaction hash and block, and — when immediate processing was
requested — the processing transaction hash and block. -/
inductive PaymentOutcome where
  | success (paymentId : Nat) (createTxHash : String) (createBlock : Nat)
      (processed : Option (String × Nat))
  | error (message : String)
deriving Repr, DecidableEq, BEq

/-- `handle_employee_payment` (payment_handler.py 42-147), in source order:
connectivity check, required-fields check (`all([...])`, where an empty string
or a zero amount is falsy), `Web3.is_address`, positivity of the amount; then
create the payment (nonce, gas price, build, sign, submit, await, extract
`paymentId` from the `PaymentCreated` event) and, if `process_payment`, submit
a second `processPayment` transaction that attaches the amount as value. -/
def handle_employee_payment (env : PaymentEnv)
    (employee_name employee_address description : String) (amount : Int)
    (process_payment : Bool) : OpResult PaymentOutcome :=
  if !env.connected then
    ⟨[ChainAction.isConnected], [], PaymentOutcome.error "Failed to connect to Monad RPC node"⟩
  else if strIsEmpty employee_name || strIsEmpty employee_address || strIsEmpty description
      || amount == 0 then
    ⟨[ChainAction.isConnected], [], PaymentOutcome.error "All fields are required"⟩
  else if !env.addrValid then
    ⟨[ChainAction.isConnected], [], PaymentOutcome.error "Invalid employee address"⟩
  else if amount ≤ 0 then
    ⟨[ChainAction.isConnected], [], PaymentOutcome.error "Amount must be greater than 0"⟩
  else
    let paymentId := extractEventId "PaymentCreated" "paymentId" env.createRcpt
    if process_payment then
      ⟨[ChainAction.isConnected,
        ChainAction.getTransactionCount, ChainAction.getGasPrice,
        ChainAction.sendRawTransaction, ChainAction.waitForReceipt,
        ChainAction.getTransactionCount, ChainAction.getGasPrice,
        ChainAction.sendRawTransaction, ChainAction.waitForReceipt],
       [createPaymentPlan env.gasPrice1 env.txCount1,
        processPaymentPlan env.gasPrice2 env.txCount2 amount.toNat],
       PaymentOutcome.success paymentId env.createHash env.createRcpt.blockNumber
         (some (env.procHash, env.procRcpt.blockNumber))⟩
    else
      ⟨[ChainAction.isConnected,
        ChainAction.getTransactionCount, ChainAction.getGasPrice,
        ChainAction.sendRawTransaction, ChainAction.waitForReceipt],
       [createPaymentPlan env.gasPrice1 env.txCount1],
       PaymentOutcome.success paymentId env.createHash env.createRcpt.blockNumber none⟩

/-- `manage_leave` in agent.py (192-260) with `action="request"`: the agent
first applies its own address-format check (`startswith('0x') and len == 42`);
only then does it construct `LeaveManagement` (whose `__init__` performs the
RPC connectivity round trip) and call `request_leave`. A constructor failure is
caught by the surrounding `except` and reported as an error. -/
def manage_leave (env : ChainEnv) (hasKey hasContract : Bool)
    (employee_address _public_hash start_date end_date leave_type reason : String) :
    OpResult Outcome :=
  if !(agentAddressCheck employee_address) then
    ⟨[], [], Outcome.error "Invalid Monad address format"⟩
  else
    match LeaveManagement.init hasKey hasContract env.connected with
    | (t, Except.error m) => ⟨t, [], Outcome.error m⟩
    | (t, Except.ok ()) =>
      let r := LeaveManagement.request_leave env start_date end_date leave_type reason
      ⟨t ++ r.trace, r.plans, r.outcome⟩

/-- `process_employee_payment` in agent.py (262-336): the agent applies its own
address-format check (`startswith('0x') and len == 42`) before delegating to
`handle_employee_payment`. -/
def process_employee_payment (env : PaymentEnv)
    (employee_name employee_address description : String) (amount : Int)
    (process_payment : Bool) : OpResult PaymentOutcome :=
  if !(agentAddressCheck employee_address) then
    ⟨[], [], PaymentOutcome.error "Invalid Monad address format"⟩
  else
    handle_employee_payment env employee_name employee_address description amount
      process_payment

/-- Claim C1: for every transaction receipt, the extraction decodes the logs for
the expected event type and returns the identifier field of the first matching
log entry; if no log matches the event signature it returns the sentinel 0. -/
theorem C1_event_extraction (eventName fieldName : String) (r : Receipt) :
    (processReceiptLogs eventName r = [] → extractEventId eventName fieldName r = 0)
    ∧ (∀ l rest, processReceiptLogs eventName r = l :: rest →
        extractEventId eventName fieldName r = (l.args.lookup fieldName).getD 0) := by
  constructor
  · intro h
    simp [extractEventId, h]
  · intro l rest h
    simp [extractEventId, h]

/-- Witness for C1: a receipt with exactly one matching `TaskCreated` log whose
`taskId` is 42 extracts 42, and a receipt with no matching log extracts 0. -/
theorem C1_event_extraction_witness :
    extractEventId "TaskCreated" "taskId"
        ⟨"0xabc", 7, [⟨"TaskCreated", [("taskId", 42)]⟩]⟩ = 42
    ∧ extractEventId "TaskCreated" "taskId" ⟨"0xabc", 7, []⟩ = 0 := by
  constructor
  · exact ((C1_event_extraction "TaskCreated" "taskId"
        ⟨"0xabc", 7, [⟨"TaskCreated", [("taskId", 42)]⟩]⟩).2
        ⟨"TaskCreated", [("taskId", 42)]⟩ [] (by decide)).trans (by decide)
  · exact (C1_event_extraction "TaskCreated" "taskId" ⟨"0xabc", 7, []⟩).1 (by decide)

/-- Claim C5: every read-only query helper returns a possibly-empty list and
never raises (each is a total function): a query over zero records returns the
empty list, and a network or decoding failure is swallowed into the empty list
rather than propagated. -/
theorem C5_queries_swallow_errors :
    (TaskTracker.get_my_tasks (Except.ok []) = []
      ∧ ∀ e, TaskTracker.get_my_tasks (Except.error e) = [])
    ∧ (LeaveManagement.get_my_leaves (Except.ok []) = []
      ∧ ∀ e, LeaveManagement.get_my_leaves (Except.error e) = [])
    ∧ ((∀ sd ed, LeaveManagement.get_attendance sd ed (Except.ok []) = [])
      ∧ ∀ sd ed e, LeaveManagement.get_attendance sd ed (Except.error e) = [])
    ∧ ((∀ c, (NoticeManager.get_notices_by_category c (Except.ok [])).2 = [])
      ∧ ∀ c e, (NoticeManager.get_notices_by_category c (Except.error e)).2 = []) := by
  refine ⟨⟨rfl, fun e => rfl⟩, ⟨rfl, fun e => rfl⟩, ⟨?_, ?_⟩, ⟨?_, ?_⟩⟩
  · intro sd ed
    unfold LeaveManagement.get_attendance
    rcases parseDate sd with _ | s <;> rcases parseDate ed with _ | e <;> simp
  · intro sd ed e
    unfold LeaveManagement.get_attendance
    rcases parseDate sd with _ | s <;> rcases parseDate ed with _ | t <;> simp
  · intro c
    unfold NoticeManager.get_notices_by_category
    split <;> simp
  · intro c e
    unfold NoticeManager.get_notices_by_category
    split <;> simp

/-- Claim C10: decoding of enumerated status and priority codes is total: an
in-range code yields the corresponding label of the label list, and every
out-of-range code yields the string Unknown instead of an indexing error. -/
theorem C10_status_decoding_total (code : Nat) :
    (∀ h : code < TASK_STATUS.length, statusLabel TASK_STATUS code = TASK_STATUS.get ⟨code, h⟩)
    ∧ (TASK_STATUS.length ≤ code → statusLabel TASK_STATUS code = "Unknown")
    ∧ (∀ h : code < LEAVE_STATUS.length, statusLabel LEAVE_STATUS code = LEAVE_STATUS.get ⟨code, h⟩)
    ∧ (LEAVE_STATUS.length ≤ code → statusLabel LEAVE_STATUS code = "Unknown")
    ∧ (∀ h : code < PRIORITY_LEVELS.length,
        statusLabel PRIORITY_LEVELS code = PRIORITY_LEVELS.get ⟨code, h⟩)
    ∧ (PRIORITY_LEVELS.length ≤ code → statusLabel PRIORITY_LEVELS code = "Unknown") := by
  refine ⟨fun h => by simp [statusLabel, h], fun h => by simp [statusLabel, Nat.not_lt.2 h],
         fun h => by simp [statusLabel, h], fun h => by simp [statusLabel, Nat.not_lt.2 h],
         fun h => by simp [statusLabel, h], fun h => by simp [statusLabel, Nat.not_lt.2 h]⟩

/-- Witness for C10: status code 2 decodes to Completed for tasks, and the
out-of-range codes 7 (tasks), 9 (leaves) and 11 (priorities) decode to Unknown. -/
theorem C10_status_decoding_witness :
    statusLabel TASK_STATUS 2 = "Completed"
    ∧ statusLabel TASK_STATUS 7 = "Unknown"
    ∧ statusLabel LEAVE_STATUS 9 = "Unknown"
    ∧ statusLabel PRIORITY_LEVELS 11 = "Unknown" := by
  refine ⟨?_, ?_, ?_, ?_⟩
  · exact ((C10_status_decoding_total 2).1 (by decide)).trans (by decide)
  · exact (C10_status_decoding_total 7).2.1 (by decide)
  · exact (C10_status_decoding_total 9).2.2.2.1 (by decide)
  · exact (C10_status_decoding_total 11).2.2.2.2.2 (by decide)

/-- Claim C6: against an unreachable chain node the operation yields the
connection-failure error outcome and no partial state: no transaction is
submitted, no plan is built, and the error result carries no transaction hash,
identifier or block number (it is the bare error constructor). -/
theorem C6_unreachable_no_partial_state (penv : PaymentEnv)
    (nm ad de : String) (amt : Int) (pp : Bool) (h : penv.connected = false) :
    handle_employee_payment penv nm ad de amt pp
      = ⟨[ChainAction.isConnected], [],
         PaymentOutcome.error "Failed to connect to Monad RPC node"⟩
    ∧ (∀ i hsh b pr,
        (handle_employee_payment penv nm ad de amt pp).outcome
          ≠ PaymentOutcome.success i hsh b pr)
    ∧ TaskTracker.init false
      = ([ChainAction.isConnected], Except.error "Failed to connect to Monad RPC node") := by
  have hmain : handle_employee_payment penv nm ad de amt pp
      = ⟨[ChainAction.isConnected], [],
         PaymentOutcome.error "Failed to connect to Monad RPC node"⟩ := by
    unfold handle_employee_payment
    simp [h]
  refine ⟨hmain, ?_, rfl⟩
  intro i hsh b pr
  rw [hmain]
  simp

/-- Witness for C6: a concrete disconnected environment produces exactly the
error result with empty plan list. -/
theorem C6_unreachable_witness :
    handle_employee_payment ⟨false, true, 5, 100, "0xc", ⟨"0xc", 9, []⟩, 6, 101, "0xp",
        ⟨"0xp", 10, []⟩⟩ "John Doe" "0x1234567890123456789012345678901234567890"
        "Monthly Salary" 1000 false
      = ⟨[ChainAction.isConnected], [],
         PaymentOutcome.error "Failed to connect to Monad RPC node"⟩ :=
  (C6_unreachable_no_partial_state ⟨false, true, 5, 100, "0xc", ⟨"0xc", 9, []⟩, 6, 101, "0xp",
        ⟨"0xp", 10, []⟩⟩ "John Doe" "0x1234567890123456789012345678901234567890"
        "Monthly Salary" 1000 false rfl).1

/-- Claim C7: every transaction plan built by the state-changing domain
operations carries the fixed chain identifier 10143 and the fixed gas limit
2000000; the gas limit is a constant, never estimated. -/
theorem C7_fixed_chain_id_and_gas :
    (∀ env d ok p, p ∈ (TaskTracker.create_task env d ok).plans →
        p.chainId = 10143 ∧ p.gas = 2000000)
    ∧ (∀ env i s p, p ∈ (TaskTracker.update_task_status env i s).plans →
        p.chainId = 10143 ∧ p.gas = 2000000)
    ∧ (∀ env c de pr co p, p ∈ (NoticeManager.create_notice env c de pr co).plans →
        p.chainId = 10143 ∧ p.gas = 2000000)
    ∧ (∀ env sd ed lt r p, p ∈ (LeaveManagement.request_leave env sd ed lt r).plans →
        p.chainId = 10143 ∧ p.gas = 2000000)
    ∧ (∀ env i s p, p ∈ (LeaveManagement.update_leave_status env i s).plans →
        p.chainId = 10143 ∧ p.gas = 2000000)
    ∧ (∀ env d p, p ∈ (LeaveManagement.mark_attendance env d).plans →
        p.chainId = 10143 ∧ p.gas = 2000000)
    ∧ (∀ penv nm ad de amt pp p, p ∈ (handle_employee_payment penv nm ad de amt pp).plans →
        p.chainId = 10143 ∧ p.gas = 2000000) := by
  refine ⟨?_, ?_, ?_, ?_, ?_, ?_, ?_⟩
  · intro env d ok p hp
    unfold TaskTracker.create_task at hp
    rcases d with _ | d
    · simp at hp
    · rcases ok
      · simp at hp
      · simp at hp
        simp [hp, createTaskPlan]
  · intro env i s p hp
    unfold TaskTracker.update_task_status at hp
    simp at hp
    simp [hp, updateTaskStatusPlan]
  · intro env c de pr co p hp
    unfold NoticeManager.create_notice at hp
    split at hp
    · simp at hp
    · split at hp
      · simp at hp
      · simp at hp
        simp [hp, createNoticePlan]
  · intro env sd ed lt r p hp
    unfold LeaveManagement.request_leave at hp
    split at hp
    · split at hp
      · simp at hp
      · split at hp
        · simp at hp
        · simp at hp
          simp [hp, requestLeavePlan]
    · simp at hp
  · intro env i s p hp
    unfold LeaveManagement.update_leave_status at hp
    split at hp
    · simp at hp
    · simp at hp
      simp [hp, updateLeaveStatusPlan]
  · intro env d p hp
    unfold LeaveManagement.mark_attendance at hp
    split at hp
    · simp at hp
    · simp at hp
      simp [hp, markAttendancePlan]
  · intro penv nm ad de amt pp p hp
    unfold handle_employee_payment at hp
    split at hp
    · simp at hp
    · split at hp
      · simp at hp
      · split at hp
        · simp at hp
        · split at hp
          · simp at hp
          · split at hp
            · simp at hp
              rcases hp with hp | hp <;>
                simp [hp, createPaymentPlan, processPaymentPlan]
            · simp at hp
              simp [hp, createPaymentPlan]

/-- Witness for C7: the plan built by a concrete `create_task` invocation has
chain id 10143 and gas limit 2000000. -/
theorem C7_fixed_chain_id_and_gas_witness :
    (createTaskPlan 100 5).chainId = 10143 ∧ (createTaskPlan 100 5).gas = 2000000 :=
  C7_fixed_chain_id_and_gas.1 ⟨true, 5, 100, "0xh", ⟨"0xh", 7, []⟩⟩ (some 0) true
    (createTaskPlan 100 5) (by simp [TaskTracker.create_task])

/-- Claim C8: in each of the seven modeled state-changing operations —
`create_task`, `update_task_status`, `create_notice`, `update_leave_status`,
`request_leave`, `mark_attendance` and `handle_employee_payment` — the nonce of
every built transaction plan equals the sender's current on-chain transaction
count as reported by the chain client at plan-build time, and each invocation
performs one fresh transaction-count fetch per plan it builds (two for the
two-transaction payment flow) — no caching across calls. -/
theorem C8_fresh_nonce
    (env : ChainEnv) (penv : PaymentEnv) (d : Nat) (i s : Nat)
    (c de co nm ad pde sd ed lt rsn dt : String) (pr : Int) (amt : Int) (pp : Bool)
    (hcat : VALID_CATEGORIES.contains (strToLower c) = true)
    (hpr : 0 ≤ pr ∧ pr ≤ 3)
    (hs : s < LEAVE_STATUS.length)
    (hconn : penv.connected = true) (hnm : strIsEmpty nm = false)
    (had : strIsEmpty ad = false) (hde : strIsEmpty pde = false)
    (hav : penv.addrValid = true) (hamt : 0 < amt) :
    ((TaskTracker.create_task env (some d) true).plans.map TxPlan.nonce = [env.txCount]
      ∧ (TaskTracker.create_task env (some d) true).trace.count
          ChainAction.getTransactionCount = 1)
    ∧ ((TaskTracker.update_task_status env i s).plans.map TxPlan.nonce = [env.txCount]
      ∧ (TaskTracker.update_task_status env i s).trace.count
          ChainAction.getTransactionCount = 1)
    ∧ ((NoticeManager.create_notice env c de pr co).plans.map TxPlan.nonce = [env.txCount]
      ∧ (NoticeManager.create_notice env c de pr co).trace.count
          ChainAction.getTransactionCount = 1)
    ∧ ((LeaveManagement.update_leave_status env i s).plans.map TxPlan.nonce = [env.txCount]
      ∧ (LeaveManagement.update_leave_status env i s).trace.count
          ChainAction.getTransactionCount = 1)
    ∧ (∀ s' e', parseDate sd = some s' → parseDate ed = some e' →
        dateGt s' e' = false → LEAVE_TYPES.contains lt = true →
        (LeaveManagement.request_leave env sd ed lt rsn).plans.map TxPlan.nonce
            = [env.txCount]
        ∧ (LeaveManagement.request_leave env sd ed lt rsn).trace.count
            ChainAction.getTransactionCount = 1)
    ∧ (∀ x, parseDate dt = some x →
        (LeaveManagement.mark_attendance env dt).plans.map TxPlan.nonce = [env.txCount]
        ∧ (LeaveManagement.mark_attendance env dt).trace.count
            ChainAction.getTransactionCount = 1)
    ∧ ((handle_employee_payment penv nm ad pde amt pp).plans.map TxPlan.nonce
          = (if pp then [penv.txCount1, penv.txCount2] else [penv.txCount1])
      ∧ (handle_employee_payment penv nm ad pde amt pp).trace.count
          ChainAction.getTransactionCount = (if pp then 2 else 1)) := by
  have hcat' : strToLower c ∈ VALID_CATEGORIES := by simpa using hcat
  have hamt0 : ¬(amt == 0) = true := by
    simp
    omega
  have hamt1 : ¬amt ≤ 0 := by omega
  refine ⟨⟨?_, ?_⟩, ⟨?_, ?_⟩, ⟨?_, ?_⟩, ⟨?_, ?_⟩, ?_, ?_, ?_⟩
  · simp [TaskTracker.create_task, createTaskPlan]
  · rfl
  · simp [TaskTracker.update_task_status, updateTaskStatusPlan]
  · rfl
  · simp [NoticeManager.create_notice, hcat', hpr.1, hpr.2, createNoticePlan]
  · unfold NoticeManager.create_notice
    rw [if_neg, if_neg]
    · rfl
    · simp [hpr.1, hpr.2]
    · simp [hcat']
  · simp [LeaveManagement.update_leave_status, hs, updateLeaveStatusPlan]
  · unfold LeaveManagement.update_leave_status
    rw [if_neg]
    · rfl
    · simp [hs]
  · intro s' e' h1 h2 h3 h4
    unfold LeaveManagement.request_leave
    rw [h1, h2]
    simp only [h3, Bool.false_eq_true, if_false, h4, Bool.not_true]
    exact ⟨by simp [requestLeavePlan], rfl⟩
  · intro x hx
    unfold LeaveManagement.mark_attendance
    rw [hx]
    exact ⟨by simp [markAttendancePlan], rfl⟩
  · unfold handle_employee_payment
    rw [if_neg, if_neg, if_neg, if_neg]
    · rcases pp <;>
        exact ⟨by simp [createPaymentPlan, processPaymentPlan], rfl⟩
    · simpa using hamt1
    · simp [hav]
    · simp [hnm, had, hde]
      omega
    · simp [hconn]

/-- Witness for C8: concrete invocations of `create_task`, `request_leave`,
`mark_attendance` and the two-transaction payment flow each carry exactly the
freshly fetched transaction count as their nonce. -/
theorem C8_fresh_nonce_witness :
    ((TaskTracker.create_task ⟨true, 5, 100, "0xh", ⟨"0xh", 7, []⟩⟩ (some 0) true).plans.map
        TxPlan.nonce = [5])
    ∧ ((LeaveManagement.request_leave ⟨true, 5, 100, "0xh", ⟨"0xh", 7, []⟩⟩ "2025-03-01"
          "2025-03-02" "Annual" "r").plans.map TxPlan.nonce = [5])
    ∧ ((LeaveManagement.mark_attendance ⟨true, 5, 100, "0xh", ⟨"0xh", 7, []⟩⟩
          "2025-03-01").plans.map TxPlan.nonce = [5])
    ∧ ((handle_employee_payment ⟨true, true, 5, 100, "0xc", ⟨"0xc", 9, []⟩, 6, 101, "0xp",
          ⟨"0xp", 10, []⟩⟩ "John Doe" "0x1234567890123456789012345678901234567890"
          "Monthly Salary" 1000 true).plans.map TxPlan.nonce = [5, 6]) :=
  have h := C8_fresh_nonce ⟨true, 5, 100, "0xh", ⟨"0xh", 7, []⟩⟩
    ⟨true, true, 5, 100, "0xc", ⟨"0xc", 9, []⟩, 6, 101, "0xp", ⟨"0xp", 10, []⟩⟩
    0 0 0 "managers" "d" "c" "John Doe" "0x1234567890123456789012345678901234567890"
    "Monthly Salary" "2025-03-01" "2025-03-02" "Annual" "r" "2025-03-01" 2 1000 true
    (by decide) (by omega) (by decide) rfl (by decide) (by decide) (by decide) rfl
    (by omega)
  ⟨h.1.1,
   (h.2.2.2.2.1 (2025, 3, 1) (2025, 3, 2) (by decide) (by decide) (by decide)
     (by decide)).1,
   (h.2.2.2.2.2.1 (2025, 3, 1) (by decide)).1,
   h.2.2.2.2.2.2.1⟩

/-- Claim C9: notice category handling is case-insensitive and normalizing:
`create_notice` passes the category check iff the lowercased category is in the
fixed seven-element allow-list; when the call reaches the contract the category
argument is the lowercased form (also for category queries); and an
out-of-range priority is rejected before any transaction is built. -/
theorem C9_notice_category_normalization (env : ChainEnv) (cat de co : String) (pr : Int) :
    ((NoticeManager.create_notice env cat de pr co).outcome
        ≠ Outcome.error "Invalid category"
      ↔ VALID_CATEGORIES.contains (strToLower cat) = true)
    ∧ (VALID_CATEGORIES.contains (strToLower cat) = true → 0 ≤ pr → pr ≤ 3 →
        (NoticeManager.create_notice env cat de pr co).sentCategory
          = some (strToLower cat))
    ∧ (¬(0 ≤ pr ∧ pr ≤ 3) →
        (NoticeManager.create_notice env cat de pr co).plans = []
        ∧ sendCount (NoticeManager.create_notice env cat de pr co).trace = 0)
    ∧ (∀ resp, (NoticeManager.get_notices_by_category cat resp).1 = none
        ∨ (NoticeManager.get_notices_by_category cat resp).1 = some (strToLower cat))
    ∧ VALID_CATEGORIES.length = 7 := by
  refine ⟨?_, ?_, ?_, ?_, rfl⟩
  · unfold NoticeManager.create_notice
    by_cases hcat : strToLower cat ∈ VALID_CATEGORIES
    · simp [hcat]
      split <;> simp
    · simp [hcat]
  · intro hcat h0 h3
    have hcat' : strToLower cat ∈ VALID_CATEGORIES := by simpa using hcat
    simp [NoticeManager.create_notice, hcat', h0, h3]
  · intro hpr
    have hd : pr < 0 ∨ 3 < pr := by omega
    unfold NoticeManager.create_notice
    by_cases hcat : strToLower cat ∈ VALID_CATEGORIES
    · simp [hcat, hd, sendCount]
    · simp [hcat, sendCount]
  · intro resp
    unfold NoticeManager.get_notices_by_category
    by_cases hcat : strToLower cat ∈ VALID_CATEGORIES
    · rcases resp <;> simp [hcat]
    · simp [hcat]

/-- Witness for C9: the mixed-case category Managers is accepted, normalized to
managers when sent to the contract, and a priority of 5 is rejected with no
transaction built. -/
theorem C9_notice_category_witness :
    (NoticeManager.create_notice ⟨true, 5, 100, "0xh", ⟨"0xh", 7, []⟩⟩ "Managers" "d" 2
        "c").sentCategory = some "managers"
    ∧ (NoticeManager.create_notice ⟨true, 5, 100, "0xh", ⟨"0xh", 7, []⟩⟩ "Managers" "d" 5
        "c").plans = [] :=
  have h2 := (C9_notice_category_normalization ⟨true, 5, 100, "0xh", ⟨"0xh", 7, []⟩⟩
    "Managers" "d" "c" 2).2.1 (by decide) (by omega) (by omega)
  have h5 := ((C9_notice_category_normalization ⟨true, 5, 100, "0xh", ⟨"0xh", 7, []⟩⟩
    "Managers" "d" "c" 5).2.2.1 (by omega)).1
  ⟨h2.trans (by decide), h5⟩

/-- Claim C2 counterexample: the string 0x followed by forty copies of z does
not match the claimed pattern (0x then 40 hex characters), yet no validation
error is reported for it: `manage_leave` proceeds past its address check all
the way to a successful submission, because agent.py checks only the 0x prefix
and the total length of 42. -/
theorem C2_counterexample :
    specAddressPattern "0xzzzzzzzzzzzzzzzzzzzzzzzzzzzzzzzzzzzzzzzz" = false
    ∧ (manage_leave ⟨true, 5, 100, "0xh", ⟨"0xh", 7, []⟩⟩ true true
        "0xzzzzzzzzzzzzzzzzzzzzzzzzzzzzzzzzzzzzzzzz" "ph" "2025-03-01" "2025-03-02"
        "Annual" "r").outcome = Outcome.success 0 "0xh" 7
    ∧ sendCount (manage_leave ⟨true, 5, 100, "0xh", ⟨"0xh", 7, []⟩⟩ true true
        "0xzzzzzzzzzzzzzzzzzzzzzzzzzzzzzzzzzzzzzzzz" "ph" "2025-03-01" "2025-03-02"
        "Annual" "r").trace = 1 :=
  ⟨by decide, by decide, by decide⟩

/-- Claim C2 amended: in `manage_leave` and `process_employee_payment` the
address-format validation error is reported iff the string fails the agent's
check — start with 0x and have total length 42; the 40 trailing characters are
not required to be hexadecimal there — and on a failing string the operation
returns the error with no chain interaction and no transaction plan built. -/
theorem C2_amended (env : ChainEnv) (penv : PaymentEnv) (hk hc : Bool)
    (addr ph sd ed lt rsn nm de : String) (amt : Int) (pp : Bool) :
    ((manage_leave env hk hc addr ph sd ed lt rsn).outcome
        = Outcome.error "Invalid Monad address format"
      ↔ agentAddressCheck addr = false)
    ∧ ((process_employee_payment penv nm addr de amt pp).outcome
        = PaymentOutcome.error "Invalid Monad address format"
      ↔ agentAddressCheck addr = false)
    ∧ (agentAddressCheck addr = false →
        manage_leave env hk hc addr ph sd ed lt rsn
          = ⟨[], [], Outcome.error "Invalid Monad address format"⟩
        ∧ process_employee_payment penv nm addr de amt pp
          = ⟨[], [], PaymentOutcome.error "Invalid Monad address format"⟩) := by
  by_cases h : agentAddressCheck addr = false
  · have hm : manage_leave env hk hc addr ph sd ed lt rsn
        = ⟨[], [], Outcome.error "Invalid Monad address format"⟩ := by
      unfold manage_leave
      simp [h]
    have hp : process_employee_payment penv nm addr de amt pp
        = ⟨[], [], PaymentOutcome.error "Invalid Monad address format"⟩ := by
      unfold process_employee_payment
      simp [h]
    refine ⟨?_, ?_, fun _ => ⟨hm, hp⟩⟩
    · rw [hm]
      simp [h]
    · rw [hp]
      simp [h]
  · have h' : agentAddressCheck addr = true := by
      revert h
      rcases agentAddressCheck addr <;> simp
    have hm : (manage_leave env hk hc addr ph sd ed lt rsn).outcome
        ≠ Outcome.error "Invalid Monad address format" := by
      unfold manage_leave
      simp only [h', Bool.not_true, Bool.false_eq_true, if_false]
      split
      · rename_i t m heq
        unfold LeaveManagement.init at heq
        split at heq
        · simp at heq
          rw [← heq.2]
          simp
        · split at heq
          · simp at heq
            rw [← heq.2]
            simp
          · split at heq
            · simp at heq
            · simp at heq
              rw [← heq.2]
              simp
      · simp only []
        unfold LeaveManagement.request_leave
        split
        · split
          · simp
          · split <;> simp
        · simp
    have hp : (process_employee_payment penv nm addr de amt pp).outcome
        ≠ PaymentOutcome.error "Invalid Monad address format" := by
      unfold process_employee_payment
      simp only [h', Bool.not_true, Bool.false_eq_true, if_false]
      unfold handle_employee_payment
      split
      · simp
      · split
        · simp
        · split
          · simp
          · split
            · simp
            · split <;> simp
    refine ⟨?_, ?_, ?_⟩
    · simp [hm, h']
    · simp [hp, h']
    · intro hfalse
      simp [h'] at hfalse

/-- Witness for C2 amended: the string hello fails the agent's address check
and both operations return the address-format error with no chain action. -/
theorem C2_amended_witness :
    manage_leave ⟨true, 5, 100, "0xh", ⟨"0xh", 7, []⟩⟩ true true "hello" "ph"
        "2025-03-01" "2025-03-02" "Annual" "r"
      = ⟨[], [], Outcome.error "Invalid Monad address format"⟩
    ∧ process_employee_payment ⟨true, true, 5, 100, "0xc", ⟨"0xc", 9, []⟩, 6, 101, "0xp",
          ⟨"0xp", 10, []⟩⟩ "John Doe" "hello" "Monthly Salary" 1000 false
      = ⟨[], [], PaymentOutcome.error "Invalid Monad address format"⟩ :=
  (C2_amended ⟨true, 5, 100, "0xh", ⟨"0xh", 7, []⟩⟩
    ⟨true, true, 5, 100, "0xc", ⟨"0xc", 9, []⟩, 6, 101, "0xp", ⟨"0xp", 10, []⟩⟩ true true
    "hello" "ph" "2025-03-01" "2025-03-02" "Annual" "r" "John Doe" "Monthly Salary"
    1000 false).2.2 (by decide)

/-- Claim C3 counterexample: one invocation of `handle_employee_payment` with
`process_payment=True` submits two state-changing transactions (createPayment
followed by processPayment), so not every operation submits at most one
transaction per call. -/
theorem C3_counterexample :
    sendCount (handle_employee_payment ⟨true, true, 5, 100, "0xc", ⟨"0xc", 9, []⟩, 6, 101,
        "0xp", ⟨"0xp", 10, []⟩⟩ "John Doe" "0x1234567890123456789012345678901234567890"
        "Monthly Salary" 1000 true).trace = 2
    ∧ ¬ sendCount (handle_employee_payment ⟨true, true, 5, 100, "0xc", ⟨"0xc", 9, []⟩, 6,
        101, "0xp", ⟨"0xp", 10, []⟩⟩ "John Doe"
        "0x1234567890123456789012345678901234567890" "Monthly Salary" 1000 true).trace
        ≤ 1 :=
  ⟨by decide, by decide⟩

/-- Claim C3 amended: on a well-formed request every state-changing domain
operation submits exactly one transaction per invocation and never retries a
submission, with the single exception of `handle_employee_payment` when
immediate processing is requested, which submits exactly two transactions
(creation, then processing). -/
theorem C3_amended
    (env : ChainEnv) (penv : PaymentEnv) (d : Nat) (i s : Nat)
    (c de co nm ad pde sd ed lt rsn dt : String) (pr : Int) (amt : Int) (pp : Bool)
    (hcat : VALID_CATEGORIES.contains (strToLower c) = true)
    (hpr : 0 ≤ pr ∧ pr ≤ 3)
    (hconn : penv.connected = true) (hnm : strIsEmpty nm = false)
    (had : strIsEmpty ad = false) (hde : strIsEmpty pde = false)
    (hav : penv.addrValid = true) (hamt : 0 < amt) :
    sendCount (TaskTracker.create_task env (some d) true).trace = 1
    ∧ sendCount (TaskTracker.update_task_status env i s).trace = 1
    ∧ sendCount (NoticeManager.create_notice env c de pr co).trace = 1
    ∧ (∀ s' e', parseDate sd = some s' → parseDate ed = some e' → dateGt s' e' = false →
        LEAVE_TYPES.contains lt = true →
        sendCount (LeaveManagement.request_leave env sd ed lt rsn).trace = 1)
    ∧ (s < LEAVE_STATUS.length →
        sendCount (LeaveManagement.update_leave_status env i s).trace = 1)
    ∧ (∀ x, parseDate dt = some x →
        sendCount (LeaveManagement.mark_attendance env dt).trace = 1)
    ∧ sendCount (handle_employee_payment penv nm ad pde amt pp).trace
        = (if pp then 2 else 1) := by
  have hcat' : strToLower c ∈ VALID_CATEGORIES := by simpa using hcat
  refine ⟨rfl, rfl, ?_, ?_, ?_, ?_, ?_⟩
  · unfold NoticeManager.create_notice
    rw [if_neg, if_neg]
    · rfl
    · simp [hpr.1, hpr.2]
    · simp [hcat']
  · intro s' e' h1 h2 h3 h4
    unfold LeaveManagement.request_leave
    rw [h1, h2]
    simp only [h3, Bool.false_eq_true, if_false, h4, Bool.not_true]
    rfl
  · intro hs
    unfold LeaveManagement.update_leave_status
    rw [if_neg]
    · rfl
    · simp [hs]
  · intro x hx
    unfold LeaveManagement.mark_attendance
    rw [hx]
    rfl
  · unfold handle_employee_payment
    rw [if_neg, if_neg, if_neg, if_neg]
    · rcases pp <;> rfl
    · omega
    · simp [hav]
    · simp [hnm, had, hde]
      omega
    · simp [hconn]

/-- Witness for C3 amended: concrete invocations submit exactly one transaction
each, and the two-transaction payment flow submits exactly two. -/
theorem C3_amended_witness :
    sendCount (TaskTracker.create_task ⟨true, 5, 100, "0xh", ⟨"0xh", 7, []⟩⟩ (some 0)
        true).trace = 1
    ∧ sendCount (LeaveManagement.request_leave ⟨true, 5, 100, "0xh", ⟨"0xh", 7, []⟩⟩
        "2025-03-01" "2025-03-02" "Annual" "r").trace = 1
    ∧ sendCount (handle_employee_payment ⟨true, true, 5, 100, "0xc", ⟨"0xc", 9, []⟩, 6,
        101, "0xp", ⟨"0xp", 10, []⟩⟩ "John Doe"
        "0x1234567890123456789012345678901234567890" "Monthly Salary" 1000 false).trace
        = 1 :=
  have h := C3_amended ⟨true, 5, 100, "0xh", ⟨"0xh", 7, []⟩⟩
    ⟨true, true, 5, 100, "0xc", ⟨"0xc", 9, []⟩, 6, 101, "0xp", ⟨"0xp", 10, []⟩⟩
    0 0 0 "managers" "d" "c" "John Doe" "0x1234567890123456789012345678901234567890"
    "Monthly Salary" "2025-03-01" "2025-03-02" "Annual" "r" "2025-03-01" 2 1000 false
    (by decide) (by omega) rfl (by decide) (by decide) (by decide) rfl (by omega)
  ⟨h.1, h.2.2.2.1 (2025, 3, 1) (2025, 3, 2) (by decide) (by decide) (by decide)
    (by decide), h.2.2.2.2.2.2⟩

/-- Claim C4 counterexample: requesting a leave with start 2025-03-10 and end
2025-03-05 through the agent does fail with the date validation error, but not
before any network call: the `LeaveManagement` constructor has already
performed the `is_connected()` round trip to the RPC node (the trace is
nonempty) before the date check runs. -/
theorem C4_counterexample :
    (manage_leave ⟨true, 5, 100, "0xh", ⟨"0xh", 7, []⟩⟩ true true
        "0x1234567890123456789012345678901234567890" "ph" "2025-03-10" "2025-03-05"
        "Annual" "r").outcome = Outcome.error "Start date cannot be after end date"
    ∧ (manage_leave ⟨true, 5, 100, "0xh", ⟨"0xh", 7, []⟩⟩ true true
        "0x1234567890123456789012345678901234567890" "ph" "2025-03-10" "2025-03-05"
        "Annual" "r").trace = [ChainAction.isConnected]
    ∧ (manage_leave ⟨true, 5, 100, "0xh", ⟨"0xh", 7, []⟩⟩ true true
        "0x1234567890123456789012345678901234567890" "ph" "2025-03-10" "2025-03-05"
        "Annual" "r").trace ≠ [] :=
  ⟨by decide, by decide, by decide⟩

/-- Claim C4 amended: with an end date strictly before the start date the leave
request fails with the date validation error and no transaction-related network
call is made — `request_leave` itself performs no network action before the
failure, and the end-to-end agent flow performs only the constructor's RPC
connectivity check, builds no transaction plan and submits nothing. -/
theorem C4_amended (env : ChainEnv) (addr ph lt rsn sd ed : String)
    (s e : Nat × Nat × Nat)
    (h1 : agentAddressCheck addr = true) (h2 : env.connected = true)
    (h3 : parseDate sd = some s) (h4 : parseDate ed = some e)
    (h5 : dateGt s e = true) :
    LeaveManagement.request_leave env sd ed lt rsn
      = ⟨[], [], Outcome.error "Start date cannot be after end date"⟩
    ∧ manage_leave env true true addr ph sd ed lt rsn
      = ⟨[ChainAction.isConnected], [],
         Outcome.error "Start date cannot be after end date"⟩ := by
  have hr : LeaveManagement.request_leave env sd ed lt rsn
      = ⟨[], [], Outcome.error "Start date cannot be after end date"⟩ := by
    unfold LeaveManagement.request_leave
    rw [h3, h4]
    simp [h5]
  refine ⟨hr, ?_⟩
  unfold manage_leave LeaveManagement.init
  simp [h1, h2, hr]

/-- Witness for C4 amended: the concrete scenario of the claim, with
start 2025-03-10 and end 2025-03-05. -/
theorem C4_amended_witness :
    LeaveManagement.request_leave ⟨true, 5, 100, "0xh", ⟨"0xh", 7, []⟩⟩ "2025-03-10"
        "2025-03-05" "Annual" "r"
      = ⟨[], [], Outcome.error "Start date cannot be after end date"⟩
    ∧ manage_leave ⟨true, 5, 100, "0xh", ⟨"0xh", 7, []⟩⟩ true true
        "0x1234567890123456789012345678901234567890" "ph" "2025-03-10" "2025-03-05"
        "Annual" "r"
      = ⟨[ChainAction.isConnected], [],
         Outcome.error "Start date cannot be after end date"⟩ :=
  C4_amended ⟨true, 5, 100, "0xh", ⟨"0xh", 7, []⟩⟩
    "0x1234567890123456789012345678901234567890" "ph" "Annual" "r" "2025-03-10"
    "2025-03-05" (2025, 3, 10) (2025, 3, 5) (by decide) rfl (by decide) (by decide)
    (by decide)
